import Mathlib

/-!
Verification of the encrypted-store access and key-lifecycle subsystem of
the RME-logger repository: the PBKDF2-based key derivation and at-rest
envelope codec (`encrypt_database.py`, `decrypt_database.py`, the
launcher's `verify_passphrase`), and the key-cache state machine
(`SecurityService` in `services/security_service.py` together with
`EncryptedDatabaseManager` in `database/encrypted_db_manager.py`).

Byte strings are modelled as `List Nat`.  The external `cryptography`
library primitives (PBKDF2-HMAC and Fernet) are not code of this
repository; they appear as function parameters, and the contracts the
library documents for them (output length, authenticated round-trip,
rejection under a wrong key) are hypotheses of the theorems that need
them.  Everything the repository itself implements — the base64 step of
key derivation, the salt-prefix envelope layout, the length check, the
error classification, the cache state transitions — is translated
directly from the source.
-/

/-- The URL-safe base64 alphabet used by python's
`base64.urlsafe_b64encode`, as byte values: `A`-`Z`, `a`-`z`, `0`-`9`,
then `-` and `_`. -/
def b64Alphabet : List Nat :=
  "ABCDEFGHIJKLMNOPQRSTUVWXYZabcdefghijklmnopqrstuvwxyz0123456789-_".toList.map Char.toNat

/-- Byte value of the base64 padding character `=`. -/
def b64Pad : Nat := 61

/-- Emit the alphabet byte for a 6-bit value. -/
def b64Char (n : Nat) : Nat := b64Alphabet.getD n 0

/-- The `base64.urlsafe_b64encode` transformation on a byte list: each
3-byte group becomes 4 alphabet bytes, and a final partial group is
padded with `=`. -/
def b64Encode : List Nat → List Nat
  | [] => []
  | [b1] => [b64Char (b1 / 4), b64Char (b1 % 4 * 16), b64Pad, b64Pad]
  | [b1, b2] => [b64Char (b1 / 4), b64Char (b1 % 4 * 16 + b2 / 16), b64Char (b2 % 16 * 4), b64Pad]
  | b1 :: b2 :: b3 :: rest =>
      b64Char (b1 / 4) :: b64Char (b1 % 4 * 16 + b2 / 16) ::
        b64Char (b2 % 16 * 4 + b3 / 64) :: b64Char (b3 % 64) :: b64Encode rest

/-- Length of a urlsafe-base64 encoding: 4 output bytes per started
3-byte group. -/
theorem b64Encode_length : ∀ l : List Nat, (b64Encode l).length = 4 * ((l.length + 2) / 3)
  | [] => rfl
  | [_] => by simp [b64Encode]
  | [_, _] => by simp [b64Encode]
  | _ :: _ :: _ :: rest => by
      have ih := b64Encode_length rest
      simp [b64Encode, ih]
      omega

/-- Shape of the external `PBKDF2HMAC(...).derive` primitive from the
`cryptography` library: passphrase, salt, iteration count, requested
output length.  The library's contract that the output has the requested
length is assumed as a hypothesis where a theorem needs it. -/
abbrev KDFPrim : Type := String → List Nat → Nat → Nat → List Nat

/-- Shape of the external `Fernet(key).encrypt` primitive: key, internal
randomness (IV/timestamp), plaintext. -/
abbrev EncPrim : Type := List Nat → List Nat → List Nat → List Nat

/-- Shape of the external `Fernet(key).decrypt` primitive: key, token;
`none` models the `InvalidToken` exception. -/
abbrev DecPrim : Type := List Nat → List Nat → Option (List Nat)

/-- Iteration count hard-coded in `encrypt_database.py` and
`decrypt_database.py` (`iterations=100000`). -/
def PBKDF2_ITERATIONS : Nat := 100000

/-- KDF output length hard-coded in the scripts (`length=32`). -/
def PBKDF2_KEYLEN : Nat := 32

/-- Number of salt bytes prefixed to the ciphertext
(`os.urandom(16)` / `encrypted_file_data[:16]`). -/
def SALT_LEN : Nat := 16

/-- The `derive_key_from_passphrase` function of `encrypt_database.py`:
`base64.urlsafe_b64encode(PBKDF2HMAC(SHA256, length=32, salt=salt,
iterations=100000).derive(passphrase))`. -/
def derive_key_from_passphrase (prim : KDFPrim) (passphrase : String) (salt : List Nat) :
    List Nat :=
  b64Encode (prim passphrase salt PBKDF2_ITERATIONS PBKDF2_KEYLEN)

/-- The `derive_key_from_passphrase` function of `decrypt_database.py`,
a textually identical copy of the one in `encrypt_database.py`. -/
def decrypt_derive_key_from_passphrase (prim : KDFPrim) (passphrase : String) (salt : List Nat) :
    List Nat :=
  b64Encode (prim passphrase salt PBKDF2_ITERATIONS PBKDF2_KEYLEN)

/-- Core of `encrypt_database.encrypt_database` once the file bytes are in
hand: an empty passphrase is rejected before any cryptography runs
(`if not passphrase: sys.exit`), otherwise the artifact written is
`salt + fernet.encrypt(database_data)` with a fresh 16-byte salt; `rand`
models Fernet's internal encryption randomness. -/
def encrypt_database (prim : KDFPrim) (enc : EncPrim) (salt rand : List Nat)
    (passphrase : String) (data : List Nat) : Option (List Nat) :=
  if passphrase = "" then none
  else some (salt ++ enc (derive_key_from_passphrase prim passphrase salt) rand data)

/-- Failure modes of `decrypt_database.decrypt_database`:
`emptyPassphrase` is the early `Passphrase cannot be empty` exit,
`corruptArtifact` the `Encrypted file is too small or corrupted` exit,
and `wrongKeyOrCorrupt` the single undifferentiated
`Invalid passphrase or corrupted file` exit raised when
`fernet.decrypt` fails. -/
inductive DecryptError
  | emptyPassphrase
  | corruptArtifact
  | wrongKeyOrCorrupt
  deriving DecidableEq

/-- Core of `decrypt_database.decrypt_database` on given artifact bytes:
reject an empty passphrase, reject an artifact shorter than 16 bytes,
otherwise split off the 16-byte salt, derive the key and attempt
authenticated decryption, classifying a failure as the single
wrong-key-or-corrupt error. -/
def decrypt_database (prim : KDFPrim) (dec : DecPrim) (passphrase : String)
    (artifact : List Nat) : Except DecryptError (List Nat) :=
  if passphrase = "" then .error .emptyPassphrase
  else if artifact.length < SALT_LEN then .error .corruptArtifact
  else
    let salt := artifact.take SALT_LEN
    let encrypted_data := artifact.drop SALT_LEN
    let key := decrypt_derive_key_from_passphrase prim passphrase salt
    match dec key encrypted_data with
    | some plaintext => .ok plaintext
    | none => .error .wrongKeyOrCorrupt

/-- Outcomes of `SecurePassphraseDialog.verify_passphrase` in
`secure_launcher.py`, keyed by the message returned with `False`:
`corrupt` is `Encrypted file appears corrupted`, `wrongKeyOrCorrupt` the
catch-all `Invalid passphrase or corrupted file`, `notADatabase` the
`Decrypted data is not a valid database` format check. -/
inductive VerifyOutcome
  | verified
  | corrupt
  | wrongKeyOrCorrupt
  | notADatabase
  deriving DecidableEq

/-- The magic header checked after decryption:
`decrypted_data.startswith(b"SQLite format 3")`. -/
def SQLITE_MAGIC : List Nat := "SQLite format 3".toList.map Char.toNat

/-- Core of `SecurePassphraseDialog.verify_passphrase` on given artifact
bytes (the file-not-found branch is about the filesystem, not the codec,
and is omitted): length check, salt split, inline PBKDF2+base64 key
derivation, Fernet decryption with the catch-all error, then the SQLite
magic-header check.  There is no empty-passphrase gate here. -/
def verify_passphrase (prim : KDFPrim) (dec : DecPrim) (artifact : List Nat)
    (passphrase : String) : VerifyOutcome :=
  if artifact.length < SALT_LEN then .corrupt
  else
    let salt := artifact.take SALT_LEN
    let encrypted_data := artifact.drop SALT_LEN
    let key := b64Encode (prim passphrase salt PBKDF2_ITERATIONS PBKDF2_KEYLEN)
    match dec key encrypted_data with
    | none => .wrongKeyOrCorrupt
    | some decrypted_data =>
        if SQLITE_MAGIC.isPrefixOf decrypted_data then .verified else .notADatabase

/-- Values of `SecurityService.key_source` set by the repository's own code
(`'passphrase'` or `'token'`); `None` is modelled by `Option`. -/
inductive KeySource
  | passphrase
  | token
  deriving DecidableEq

/-- The `SecurityService` key-cache fields: `cached_key` and `key_source`,
both `None` after `__init__`. -/
structure SecState where
  cached_key : Option String
  key_source : Option KeySource
  deriving DecidableEq

/-- The state a fresh `SecurityService()` starts in and the `Empty` state
of the key-lifecycle machine: both fields `None`. -/
def SecState.startState : SecState :=
  { cached_key := none, key_source := none }

/-- Python truthiness of an optional string: `None` and the empty string
are falsy, every other string is truthy. -/
def pyTruthy : Option String → Bool
  | none => false
  | some s => decide (s ≠ "")

/-- `SecurityService.get_key_from_token`: a placeholder that always
returns `None` (even when a token path exists, the body is `pass`
followed by `return None`). -/
def get_key_from_token : Option String := none

/-- `SecurityService.derive_key_from_passphrase`: returns the passphrase
unchanged (SQLCipher performs its own key derivation); the `salt`
parameter of the source is unused. -/
def service_derive_key_from_passphrase (passphrase : String) : String :=
  passphrase

/-- `SecurityService.get_connection_key`.  `promptResult` models the value
`prompt_for_passphrase` returns: `none` when the dialog is cancelled and
`some s` when the user submits `s` (possibly empty).  Returns the key
handed to the caller (or `none`) together with the service state after
the call. -/
def get_connection_key (st : SecState) (promptResult : Option String) :
    Option String × SecState :=
  if pyTruthy st.cached_key then (st.cached_key, st)
  else if pyTruthy get_key_from_token then
    (get_key_from_token, { cached_key := get_key_from_token, key_source := some .token })
  else if pyTruthy promptResult then
    let key := service_derive_key_from_passphrase (promptResult.getD "")
    (some key, { cached_key := some key, key_source := some .passphrase })
  else (none, st)

/-- `SecurityService.clear_cached_key`: sets both cache fields to `None`,
unconditionally. -/
def clear_cached_key (_st : SecState) : SecState :=
  { cached_key := none, key_source := none }

/-- Failure modes of `EncryptedDatabaseManager.get_connection`:
`lockedError` is the `ValueError("No encryption key available")` raised
when no key could be acquired, `authenticationError` the exception
propagated when the `SELECT 1` liveness check fails after the key is
applied. -/
inductive GateError
  | lockedError
  | authenticationError
  deriving DecidableEq

/-- `EncryptedDatabaseManager.get_connection` (SQLCipher branch): acquire
a key through `SecurityService.get_connection_key`, raise if none is
available, open the connection and apply the key, run the `SELECT 1`
liveness check (modelled by the predicate `keyVerifies`), then yield the
keyed handle to the caller's operation `op`; any exception propagates,
and the service state is whatever `get_connection_key` left — the gate
itself never purges the cache. -/
def get_connection {R : Type} (st : SecState) (promptResult : Option String)
    (keyVerifies : String → Bool) (op : String → R) :
    Except GateError R × SecState :=
  let acquired := get_connection_key st promptResult
  if pyTruthy acquired.1 then
    let key := acquired.1.getD ""
    if keyVerifies key then (.ok (op key), acquired.2)
    else (.error .authenticationError, acquired.2)
  else (.error .lockedError, acquired.2)

/-- `EncryptedDatabaseManager.initialize_encrypted_db`: when the database
exists and `force` is false a `ValueError` is raised with the cache
untouched; otherwise the new database is created and the service cache is
set to the passphrase with source `'passphrase'`.  The returned state is
the service state after the call. -/
def initialize_encrypted_db (st : SecState) (passphrase : String)
    (dbExists force : Bool) : SecState :=
  if dbExists && !force then st
  else { cached_key := some passphrase, key_source := some .passphrase }

/-- `EncryptedDatabaseManager.change_passphrase`: without SQLCipher a
`ValueError` is raised with the cache untouched; `oldKeyOk` models the
`PRAGMA key` plus `SELECT 1` verification of the old passphrase, whose
failure propagates with the cache untouched; on success the database is
rekeyed and only `cached_key` is updated — `key_source` is not
assigned. -/
def change_passphrase (st : SecState) (new_passphrase : String)
    (usingSqlcipher oldKeyOk : Bool) : SecState :=
  if !usingSqlcipher then st
  else if !oldKeyOk then st
  else { st with cached_key := some new_passphrase }

/-- `EncryptedDatabaseManager.migrate_to_encrypted`: without SQLCipher, or
when the source database is missing, an error is raised with the cache
untouched; on success the cache is set to the passphrase with source
`'passphrase'`. -/
def migrate_to_encrypted (st : SecState) (passphrase : String)
    (usingSqlcipher sourceExists : Bool) : SecState :=
  if !usingSqlcipher then st
  else if !sourceExists then st
  else { cached_key := some passphrase, key_source := some .passphrase }

/-- The spec's invariant on the key-cache entry: if `key` is present,
`source` is not `none`. -/
def cacheInvariant (st : SecState) : Prop :=
  st.cached_key ≠ none → st.key_source ≠ none

/-- Truthiness of an absent value. -/
theorem pyTruthy_none : pyTruthy none = false := rfl

/-- C9: `clear_cached_key` (the purge) succeeds from any starting state,
always yields the Empty state with both cache fields cleared, and is
idempotent: a second call in a row is a no-op that still leaves the
state Empty. -/
theorem C9_purge_idempotent (st : SecState) :
    clear_cached_key st = SecState.startState ∧
    clear_cached_key (clear_cached_key st) = clear_cached_key st :=
  ⟨rfl, rfl⟩

/-- C8: in the Cached state `get_connection_key` returns the cached key,
does not prompt (the result is independent of the prompt outcome) and
leaves the state unchanged; the token stub is always absent; and from an
Empty state a cancelled prompt returns nothing with the state unchanged,
so the cache stays Empty. -/
theorem C8_acquire_behaviour (st st' : SecState) (pr pr' : Option String)
    (hC : pyTruthy st.cached_key = true) (hE : st'.cached_key = none) :
    get_connection_key st pr = (st.cached_key, st) ∧
    get_connection_key st pr = get_connection_key st pr' ∧
    get_key_from_token = none ∧
    get_connection_key st' none = (none, st') := by
  refine ⟨?_, ?_, rfl, ?_⟩
  · simp [get_connection_key, hC]
  · simp [get_connection_key, hC]
  · simp [get_connection_key, hE, get_key_from_token, pyTruthy_none]

/-- Witness for C8 at a concrete Cached state and the fresh Empty
state. -/
theorem C8_acquire_behaviour_witness :
    pyTruthy (SecState.mk (some "k") (some KeySource.passphrase)).cached_key = true ∧
    SecState.startState.cached_key = none ∧
    (get_connection_key ⟨some "k", some KeySource.passphrase⟩ (some "x") =
        ((SecState.mk (some "k") (some KeySource.passphrase)).cached_key,
          ⟨some "k", some KeySource.passphrase⟩) ∧
      get_connection_key ⟨some "k", some KeySource.passphrase⟩ (some "x") =
        get_connection_key ⟨some "k", some KeySource.passphrase⟩ none ∧
      get_key_from_token = none ∧
      get_connection_key SecState.startState none = (none, SecState.startState)) :=
  ⟨by decide, rfl,
    C8_acquire_behaviour ⟨some "k", some KeySource.passphrase⟩ SecState.startState
      (some "x") none (by decide) rfl⟩

/-- C1: with an Empty cache, the token stub absent and a prompt that
yields nothing truthy, the gate fails closed with the locked error
(`ValueError("No encryption key available")`) before opening any
connection, and the operation is never invoked: the result is identical
for every operation. -/
theorem C1_gate_fails_closed {R : Type} (st : SecState) (pr : Option String)
    (kv : String → Bool) (op op' : String → R)
    (hE : st.cached_key = none) (hP : pyTruthy pr = false) :
    (get_connection st pr kv op).1 = Except.error GateError.lockedError ∧
    get_connection st pr kv op = get_connection st pr kv op' := by
  have hkey : get_connection_key st pr = (none, st) := by
    simp [get_connection_key, hE, get_key_from_token, pyTruthy_none, hP]
  constructor <;> simp [get_connection, hkey, pyTruthy_none]

/-- Witness for C1: a fresh service, a cancelled prompt, and two
operations the gate can be shown never to run. -/
theorem C1_gate_fails_closed_witness :
    SecState.startState.cached_key = none ∧
    pyTruthy none = false ∧
    ((get_connection SecState.startState none (fun _ => true) (fun _ : String => (0 : Nat))).1 =
        Except.error GateError.lockedError ∧
      get_connection SecState.startState none (fun _ => true) (fun _ : String => (0 : Nat)) =
        get_connection SecState.startState none (fun _ => true) (fun _ : String => (1 : Nat))) :=
  ⟨rfl, rfl,
    C1_gate_fails_closed SecState.startState none (fun _ => true)
      (fun _ => (0 : Nat)) (fun _ => (1 : Nat)) rfl rfl⟩

/-- C3 as stated fails on the code: from the Empty state a submitted
passphrase is cached by `get_connection_key` before any verification,
and when the gate's `SELECT 1` liveness check then fails nothing purges
the cache, so the machine is left in the Cached state holding the very
key that failed verification. -/
theorem C3_counterexample :
    (get_connection SecState.startState (some "wrong") (fun _ => false)
          (fun _ : String => ())).1 =
        Except.error GateError.authenticationError ∧
    (get_connection SecState.startState (some "wrong") (fun _ => false)
          (fun _ : String => ())).2.cached_key =
        some "wrong" := by
  constructor <;> rfl

/-- C3 amended: user cancellation leaves the cache Empty, but after a
failed gate liveness check the cache retains the unverified key that
`get_connection_key` stored before verification; only an explicit
`clear_cached_key` returns the machine to Empty. -/
theorem C3_amended_failure_paths (st : SecState) (pr : Option String)
    (kv : String → Bool)
    (hE : st.cached_key = none) (hpr : pyTruthy pr = true)
    (hkv : kv (service_derive_key_from_passphrase (pr.getD "")) = false) :
    (get_connection st none kv (fun _ : String => ())).2 = st ∧
    (get_connection st pr kv (fun _ : String => ())).1 =
        Except.error GateError.authenticationError ∧
    (get_connection st pr kv (fun _ : String => ())).2.cached_key =
        some (service_derive_key_from_passphrase (pr.getD "")) ∧
    clear_cached_key (get_connection st pr kv (fun _ : String => ())).2 =
        SecState.startState := by
  cases pr with
  | none => simp [pyTruthy_none] at hpr
  | some s =>
      have hs : s ≠ "" := by simpa [pyTruthy] using hpr
      have hget : get_connection_key st (some s) =
          (some s, { cached_key := some s, key_source := some KeySource.passphrase }) := by
        simp [get_connection_key, hE, get_key_from_token, pyTruthy_none, pyTruthy, hs,
          service_derive_key_from_passphrase]
      have hkv' : kv s = false := by
        simpa [service_derive_key_from_passphrase] using hkv
      refine ⟨?_, ?_, ?_, ?_⟩
      · simp [get_connection, get_connection_key, hE, get_key_from_token, pyTruthy_none]
      · simp [get_connection, hget, pyTruthy, hs, hkv']
      · simp [get_connection, hget, pyTruthy, hs, hkv', service_derive_key_from_passphrase]
      · simp [get_connection, hget, pyTruthy, hs, hkv', clear_cached_key, SecState.startState]

/-- Witness for the amended C3 at a fresh service, the submitted
passphrase "wrong" and a liveness check that rejects every key. -/
theorem C3_amended_failure_paths_witness :
    SecState.startState.cached_key = none ∧
    pyTruthy (some "wrong") = true ∧
    (fun _ : String => false) (service_derive_key_from_passphrase ((some "wrong").getD "")) = false ∧
    ((get_connection SecState.startState none (fun _ : String => false) (fun _ : String => ())).2 =
        SecState.startState ∧
      (get_connection SecState.startState (some "wrong") (fun _ : String => false)
            (fun _ : String => ())).1 =
          Except.error GateError.authenticationError ∧
      (get_connection SecState.startState (some "wrong") (fun _ : String => false)
            (fun _ : String => ())).2.cached_key =
          some (service_derive_key_from_passphrase ((some "wrong").getD "")) ∧
      clear_cached_key
          (get_connection SecState.startState (some "wrong") (fun _ : String => false)
            (fun _ : String => ())).2 =
        SecState.startState) :=
  ⟨rfl, by decide, rfl,
    C3_amended_failure_paths SecState.startState (some "wrong") (fun _ => false)
      rfl (by decide) rfl⟩

/-- C4 as stated fails on the code: `change_passphrase` assigns
`cached_key` without assigning `key_source`, so called from the Empty
state (where the invariant holds) it leaves a state with a key present
and `source` still `none`. -/
theorem C4_counterexample :
    cacheInvariant SecState.startState ∧
    ¬ cacheInvariant (change_passphrase SecState.startState "newpass" true true) := by
  constructor
  · intro h
    exact absurd rfl h
  · intro h
    exact h (by simp [change_passphrase, SecState.startState]) rfl

/-- C4 amended: `get_connection_key`, `clear_cached_key`,
`initialize_encrypted_db` and `migrate_to_encrypted` preserve the
key-implies-source invariant from any state satisfying it;
`change_passphrase` preserves it only when the `source` field is already
set, because it updates the cached key without touching the source. -/
theorem C4_amended_invariant_preservation (st : SecState) (pr : Option String)
    (p np : String) (b1 b2 b3 b4 b5 b6 : Bool)
    (hinv : cacheInvariant st) :
    cacheInvariant (get_connection_key st pr).2 ∧
    cacheInvariant (clear_cached_key st) ∧
    cacheInvariant (initialize_encrypted_db st p b1 b2) ∧
    cacheInvariant (migrate_to_encrypted st p b3 b4) ∧
    (st.key_source ≠ none → cacheInvariant (change_passphrase st np b5 b6)) := by
  refine ⟨?_, ?_, ?_, ?_, ?_⟩
  · by_cases h1 : pyTruthy st.cached_key
    · simpa [get_connection_key, h1] using hinv
    · by_cases h2 : pyTruthy pr
      · simp [get_connection_key, h1, h2, get_key_from_token, pyTruthy_none, cacheInvariant]
      · simpa [get_connection_key, h1, h2, get_key_from_token, pyTruthy_none] using hinv
  · simp [clear_cached_key, cacheInvariant]
  · unfold initialize_encrypted_db
    split
    · exact hinv
    · simp [cacheInvariant]
  · unfold migrate_to_encrypted
    split
    · exact hinv
    · split
      · exact hinv
      · simp [cacheInvariant]
  · intro hsrc
    unfold change_passphrase
    split
    · exact hinv
    · split
      · exact hinv
      · intro _
        exact hsrc

/-- Witness for the amended C4 at a concrete Cached state satisfying the
invariant. -/
theorem C4_amended_invariant_preservation_witness :
    cacheInvariant (SecState.mk (some "k") (some KeySource.passphrase)) ∧
    (cacheInvariant (get_connection_key ⟨some "k", some KeySource.passphrase⟩ (some "x")).2 ∧
      cacheInvariant (clear_cached_key ⟨some "k", some KeySource.passphrase⟩) ∧
      cacheInvariant (initialize_encrypted_db ⟨some "k", some KeySource.passphrase⟩ "p" true false) ∧
      cacheInvariant (migrate_to_encrypted ⟨some "k", some KeySource.passphrase⟩ "p" true true) ∧
      ((SecState.mk (some "k") (some KeySource.passphrase)).key_source ≠ none →
        cacheInvariant (change_passphrase ⟨some "k", some KeySource.passphrase⟩ "np" true true))) :=
  ⟨fun _ => Option.some_ne_none _,
    C4_amended_invariant_preservation ⟨some "k", some KeySource.passphrase⟩ (some "x")
      "p" "np" true false true true true true (fun _ => Option.some_ne_none _)⟩

/-- C5: the scripts' key derivation is deterministic (equal inputs give
equal derived keys, as required for the envelope to be decryptable
across runs), the copies in `encrypt_database.py` and
`decrypt_database.py` agree, the PBKDF2 primitive is invoked with the
fixed iteration count 100000 and output length 32, and under the
library's output-length contract the derived Fernet key has the fixed
length 44 (urlsafe-base64 of 32 bytes). -/
theorem C5_derive_deterministic_fixed_length (prim : KDFPrim)
    (p p' : String) (s s' : List Nat) (hp : p = p') (hs : s = s')
    (hlen : (prim p s PBKDF2_ITERATIONS PBKDF2_KEYLEN).length = PBKDF2_KEYLEN) :
    derive_key_from_passphrase prim p s = derive_key_from_passphrase prim p' s' ∧
    decrypt_derive_key_from_passphrase prim p s = derive_key_from_passphrase prim p s ∧
    derive_key_from_passphrase prim p s = b64Encode (prim p s 100000 32) ∧
    (derive_key_from_passphrase prim p s).length = 44 := by
  subst hp
  subst hs
  refine ⟨rfl, rfl, rfl, ?_⟩
  rw [derive_key_from_passphrase, b64Encode_length, hlen]
  decide

/-- Witness for C5 with a primitive honouring the requested output
length. -/
theorem C5_derive_deterministic_fixed_length_witness :
    "pw" = "pw" ∧ ([7] : List Nat) = [7] ∧
    ((fun _ _ _ n => List.replicate n 0 : KDFPrim) "pw" [7]
        PBKDF2_ITERATIONS PBKDF2_KEYLEN).length = PBKDF2_KEYLEN ∧
    (derive_key_from_passphrase (fun _ _ _ n => List.replicate n 0) "pw" [7] =
        derive_key_from_passphrase (fun _ _ _ n => List.replicate n 0) "pw" [7] ∧
      decrypt_derive_key_from_passphrase (fun _ _ _ n => List.replicate n 0) "pw" [7] =
        derive_key_from_passphrase (fun _ _ _ n => List.replicate n 0) "pw" [7] ∧
      derive_key_from_passphrase (fun _ _ _ n => List.replicate n 0) "pw" [7] =
        b64Encode ((fun _ _ _ n => List.replicate n 0 : KDFPrim) "pw" [7] 100000 32) ∧
      (derive_key_from_passphrase (fun _ _ _ n => List.replicate n 0) "pw" [7]).length = 44) :=
  ⟨rfl, rfl, by simp,
    C5_derive_deterministic_fixed_length (fun _ _ _ n => List.replicate n 0)
      "pw" "pw" [7] [7] rfl rfl (by simp)⟩

/-- The two copies of the script KDF wrapper are the same function. -/
theorem decrypt_derive_eq (prim : KDFPrim) (p : String) (s : List Nat) :
    decrypt_derive_key_from_passphrase prim p s = derive_key_from_passphrase prim p s :=
  rfl

/-- C2: envelope round-trip — whenever encryption succeeds (the
passphrase is non-empty), decrypting the artifact it wrote with the same
passphrase returns exactly the original plaintext, given the 16 salt
bytes produced by `os.urandom(16)` and Fernet's documented
decrypt-of-encrypt round-trip contract. -/
theorem C2_envelope_roundtrip (prim : KDFPrim) (enc : EncPrim) (dec : DecPrim)
    (salt rand data artifact : List Nat) (passphrase : String)
    (hsalt : salt.length = SALT_LEN)
    (hfernet : ∀ k r m, dec k (enc k r m) = some m)
    (henc : encrypt_database prim enc salt rand passphrase data = some artifact) :
    decrypt_database prim dec passphrase artifact = Except.ok data := by
  unfold encrypt_database at henc
  by_cases hp : passphrase = ""
  · simp [hp] at henc
  · rw [if_neg hp, Option.some.injEq] at henc
    subst henc
    have hl : ¬ (salt ++ enc (derive_key_from_passphrase prim passphrase salt) rand data).length
        < SALT_LEN := by
      rw [List.length_append, hsalt]
      omega
    have ht : (salt ++ enc (derive_key_from_passphrase prim passphrase salt) rand data).take
        SALT_LEN = salt := by
      rw [← hsalt]
      exact List.take_left _ _
    have hd : (salt ++ enc (derive_key_from_passphrase prim passphrase salt) rand data).drop
        SALT_LEN = enc (derive_key_from_passphrase prim passphrase salt) rand data := by
      rw [← hsalt]
      exact List.drop_left _ _
    simp only [decrypt_database, decrypt_derive_eq]
    rw [if_neg hp, if_neg hl, ht, hd, hfernet]

/-- Witness for C2 with trivial primitives satisfying the round-trip
contract. -/
theorem C2_envelope_roundtrip_witness :
    (List.replicate 16 0 : List Nat).length = SALT_LEN ∧
    (∀ k r m, (fun _ c => some c : DecPrim) k ((fun _ _ m => m : EncPrim) k r m) = some m) ∧
    encrypt_database (fun _ _ _ n => List.replicate n 0) (fun _ _ m => m)
        (List.replicate 16 0) [] "pw" [1, 2, 3] =
      some (List.replicate 16 0 ++ [1, 2, 3]) ∧
    decrypt_database (fun _ _ _ n => List.replicate n 0) (fun _ c => some c) "pw"
        (List.replicate 16 0 ++ [1, 2, 3]) = Except.ok [1, 2, 3] :=
  ⟨by decide, fun _ _ _ => rfl, rfl,
    C2_envelope_roundtrip (fun _ _ _ n => List.replicate n 0) (fun _ _ m => m)
      (fun _ c => some c) (List.replicate 16 0) [] [1, 2, 3]
      (List.replicate 16 0 ++ [1, 2, 3]) "pw" (by decide) (fun _ _ _ => rfl) rfl⟩

/-- C6: decrypting an artifact produced under one passphrase with a
different non-empty passphrase yields the single undifferentiated
wrong-key-or-corrupt error, under Fernet's authenticated-encryption
contract instantiated at the two derived keys: decryption of the token
under the key derived from the other passphrase rejects it. -/
theorem C6_wrong_key_rejected (prim : KDFPrim) (enc : EncPrim) (dec : DecPrim)
    (salt rand data artifact : List Nat) (correct incorrect : String)
    (hsalt : salt.length = SALT_LEN)
    (_hne : incorrect ≠ correct) (hip : incorrect ≠ "")
    (hreject : dec (decrypt_derive_key_from_passphrase prim incorrect salt)
        (enc (derive_key_from_passphrase prim correct salt) rand data) = none)
    (henc : encrypt_database prim enc salt rand correct data = some artifact) :
    decrypt_database prim dec incorrect artifact =
      Except.error DecryptError.wrongKeyOrCorrupt := by
  unfold encrypt_database at henc
  by_cases hc : correct = ""
  · simp [hc] at henc
  · rw [if_neg hc, Option.some.injEq] at henc
    subst henc
    have hl : ¬ (salt ++ enc (derive_key_from_passphrase prim correct salt) rand data).length
        < SALT_LEN := by
      rw [List.length_append, hsalt]
      omega
    have ht : (salt ++ enc (derive_key_from_passphrase prim correct salt) rand data).take
        SALT_LEN = salt := by
      rw [← hsalt]
      exact List.take_left _ _
    have hd : (salt ++ enc (derive_key_from_passphrase prim correct salt) rand data).drop
        SALT_LEN = enc (derive_key_from_passphrase prim correct salt) rand data := by
      rw [← hsalt]
      exact List.drop_left _ _
    rw [decrypt_derive_eq] at hreject
    simp only [decrypt_database, decrypt_derive_eq]
    rw [if_neg hip, if_neg hl, ht, hd, hreject]

/-- Witness for C6: an artifact sealed under "correct" and opened with
"incorrect", with a decryption primitive rejecting the mismatched
key. -/
theorem C6_wrong_key_rejected_witness :
    (List.replicate 16 0 : List Nat).length = SALT_LEN ∧
    "incorrect" ≠ "correct" ∧
    "incorrect" ≠ "" ∧
    (fun _ _ => none : DecPrim)
        (decrypt_derive_key_from_passphrase (fun _ _ _ n => List.replicate n 0) "incorrect"
          (List.replicate 16 0))
        ((fun _ _ m => m : EncPrim)
          (derive_key_from_passphrase (fun _ _ _ n => List.replicate n 0) "correct"
            (List.replicate 16 0)) [] [1, 2, 3]) = none ∧
    encrypt_database (fun _ _ _ n => List.replicate n 0) (fun _ _ m => m)
        (List.replicate 16 0) [] "correct" [1, 2, 3] =
      some (List.replicate 16 0 ++ [1, 2, 3]) ∧
    decrypt_database (fun _ _ _ n => List.replicate n 0) (fun _ _ => none) "incorrect"
        (List.replicate 16 0 ++ [1, 2, 3]) =
      Except.error DecryptError.wrongKeyOrCorrupt :=
  ⟨by decide, by decide, by decide, rfl, rfl,
    C6_wrong_key_rejected (fun _ _ _ n => List.replicate n 0) (fun _ _ m => m)
      (fun _ _ => none) (List.replicate 16 0) [] [1, 2, 3]
      (List.replicate 16 0 ++ [1, 2, 3]) "correct" "incorrect"
      (by decide) (by decide) (by decide) rfl rfl⟩

/-- C7: an artifact shorter than the 16-byte salt is rejected as
corrupt: `decrypt_database` returns the corrupt-artifact error for every
non-empty passphrase (an empty one is rejected even earlier, at the
caller boundary) and the launcher's `verify_passphrase` returns
`corrupt` for every passphrase; in both cases the result is independent
of the KDF and decryption primitives, so no key derivation or decryption
is attempted. -/
theorem C7_truncation_rejected (prim prim2 : KDFPrim) (dec dec2 : DecPrim)
    (artifact : List Nat) (passphrase pass2 : String)
    (hshort : artifact.length < SALT_LEN) (hp : passphrase ≠ "") :
    decrypt_database prim dec passphrase artifact =
        Except.error DecryptError.corruptArtifact ∧
    verify_passphrase prim2 dec2 artifact pass2 = VerifyOutcome.corrupt ∧
    (∀ (q : KDFPrim) (d : DecPrim),
        decrypt_database q d passphrase artifact =
          decrypt_database prim dec passphrase artifact) ∧
    (∀ (q : KDFPrim) (d : DecPrim),
        verify_passphrase q d artifact pass2 = verify_passphrase prim2 dec2 artifact pass2) := by
  refine ⟨?_, ?_, ?_, ?_⟩
  · simp [decrypt_database, hp, hshort]
  · simp [verify_passphrase, hshort]
  · intro q d
    simp [decrypt_database, hp, hshort]
  · intro q d
    simp [verify_passphrase, hshort]

/-- Witness for C7 on a 3-byte artifact, with an empty passphrase on the
launcher side to cover "every passphrase" there. -/
theorem C7_truncation_rejected_witness :
    ([9, 9, 9] : List Nat).length < SALT_LEN ∧
    "pw" ≠ "" ∧
    (decrypt_database (fun _ _ _ _ => []) (fun _ _ => none) "pw" [9, 9, 9] =
        Except.error DecryptError.corruptArtifact ∧
      verify_passphrase (fun _ _ _ _ => []) (fun _ _ => none) [9, 9, 9] "" =
        VerifyOutcome.corrupt ∧
      (∀ (q : KDFPrim) (d : DecPrim),
          decrypt_database q d "pw" [9, 9, 9] =
            decrypt_database (fun _ _ _ _ => []) (fun _ _ => none) "pw" [9, 9, 9]) ∧
      (∀ (q : KDFPrim) (d : DecPrim),
          verify_passphrase q d [9, 9, 9] "" =
            verify_passphrase (fun _ _ _ _ => []) (fun _ _ => none) [9, 9, 9] "")) :=
  ⟨by decide, by decide,
    C7_truncation_rejected (fun _ _ _ _ => []) (fun _ _ _ _ => []) (fun _ _ => none)
      (fun _ _ => none) [9, 9, 9] "pw" "" (by decide) (by decide)⟩

/-- C10: an artifact of exactly 16 bytes (a salt with empty ciphertext)
passes the too-short check, the key is derived, and authenticated
decryption of the empty token fails (Fernet rejects it), so both
decoders report the wrong-key-or-corrupt error rather than the corrupt
artifact error. -/
theorem C10_exact_salt_length (prim : KDFPrim) (dec : DecPrim)
    (artifact : List Nat) (passphrase : String)
    (hlen : artifact.length = SALT_LEN) (hp : passphrase ≠ "")
    (hreject : dec (b64Encode (prim passphrase (artifact.take SALT_LEN)
        PBKDF2_ITERATIONS PBKDF2_KEYLEN)) [] = none) :
    decrypt_database prim dec passphrase artifact =
        Except.error DecryptError.wrongKeyOrCorrupt ∧
    verify_passphrase prim dec artifact passphrase = VerifyOutcome.wrongKeyOrCorrupt := by
  have hnl : ¬ artifact.length < SALT_LEN := by
    omega
  have hd : artifact.drop SALT_LEN = [] :=
    List.drop_eq_nil_of_le (le_of_eq hlen)
  constructor
  · simp [decrypt_database, hp, hnl, hd, decrypt_derive_key_from_passphrase, hreject]
  · simp [verify_passphrase, hnl, hd, hreject]

/-- Witness for C10 on the all-zero 16-byte artifact. -/
theorem C10_exact_salt_length_witness :
    (List.replicate 16 0 : List Nat).length = SALT_LEN ∧
    "pw" ≠ "" ∧
    (fun _ _ => none : DecPrim)
        (b64Encode ((fun _ _ _ n => List.replicate n 0 : KDFPrim) "pw"
          ((List.replicate 16 0 : List Nat).take SALT_LEN)
          PBKDF2_ITERATIONS PBKDF2_KEYLEN)) [] = none ∧
    (decrypt_database (fun _ _ _ n => List.replicate n 0) (fun _ _ => none) "pw"
          (List.replicate 16 0) =
        Except.error DecryptError.wrongKeyOrCorrupt ∧
      verify_passphrase (fun _ _ _ n => List.replicate n 0) (fun _ _ => none)
          (List.replicate 16 0) "pw" = VerifyOutcome.wrongKeyOrCorrupt) :=
  ⟨by decide, by decide, rfl,
    C10_exact_salt_length (fun _ _ _ n => List.replicate n 0) (fun _ _ => none)
      (List.replicate 16 0) "pw" (by decide) (by decide) rfl⟩
